import Mathlib

/-
Verification of the husky-robotics spectrometer pipeline
(src/processor.py and src/spectrometer_app.py) against its
natural-language specification.

The Python code is shallowly embedded over exact rational arithmetic (ℚ).
Library calls (numpy / scipy) are embedded by translating the behaviour of
the library routine actually invoked, including its argument-validation
errors.  Failures (Python exceptions) are modelled with Except String,
carrying the message of the exception that the library raises; non-finite
floating results (nan / inf produced by division by zero) are modelled
with Option ℚ, where none stands for a non-finite value.
-/

instance {ε α : Type} [DecidableEq ε] [DecidableEq α] : DecidableEq (Except ε α) :=
  fun a b =>
    match a, b with
    | .ok x, .ok y => decidable_of_iff (x = y) (by simp)
    | .error e, .error f => decidable_of_iff (e = f) (by simp)
    | .ok _, .error _ => isFalse (by simp)
    | .error _, .ok _ => isFalse (by simp)

/-- numpy elementwise division: division by zero yields a non-finite value
(nan or inf), modelled as none. -/
def npDiv (a b : ℚ) : Option ℚ :=
  if b = 0 then none else some (a / b)

/-- Indexing with zero padding outside the array, as used by the
zero-padded scipy filters (medfilt, ndimage correlate1d mode constant). -/
def npGetZero (xs : List ℚ) (i : Int) : ℚ :=
  if 0 ≤ i then xs.getD i.toNat 0 else 0

/-- Dot product of two rows. -/
def dotQ (a b : List ℚ) : ℚ :=
  (List.zipWith (· * ·) a b).sum

/-- Transpose of a rectangular matrix given as a list of rows. -/
def matTranspose (m : List (List ℚ)) : List (List ℚ) :=
  (List.range (m.headD []).length).map (fun j => m.map (fun row => row.getD j 0))

/-- Matrix-vector product. -/
def matVec (m : List (List ℚ)) (v : List ℚ) : List ℚ :=
  m.map (fun row => dotQ row v)

/-- Matrix-matrix product. -/
def matMul (a b : List (List ℚ)) : List (List ℚ) :=
  a.map (fun row => (matTranspose b).map (fun col => dotQ row col))

/-- One step of Gaussian elimination on an augmented matrix: pick the first
row whose leading coefficient is nonzero, and use it to eliminate the
leading coefficient of every other row.  Returns none when no pivot exists
(singular system). -/
def gaussPivot (rows : List (List ℚ)) : Option (List ℚ × List (List ℚ)) :=
  match rows.findIdx? (fun r => decide (r.headD 0 ≠ 0)) with
  | none => none
  | some i =>
      let p := rows.getD i []
      let rest := rows.eraseIdx i
      some (p, rest.map (fun r =>
        List.zipWith (fun a b => a - (r.headD 0 / p.headD 0) * b) r.tail p.tail))

/-- Gaussian elimination of n unknowns to triangular form. -/
def gaussElim : Nat → List (List ℚ) → Option (List (List ℚ))
  | 0, _ => some []
  | n + 1, rows =>
      match gaussPivot rows with
      | none => none
      | some (p, rest) =>
          match gaussElim n rest with
          | none => none
          | some tri => some (p :: tri)

/-- Back substitution on the triangular form produced by gaussElim; every
pivot is nonzero by construction. -/
def backSub : List (List ℚ) → List ℚ
  | [] => []
  | r :: tri =>
      let xs := backSub tri
      ((r.getLastD 0 - dotQ r.tail.dropLast xs) / r.headD 0) :: xs

/-- Solve the square linear system A x = b by Gaussian elimination; none
exactly when the system has no pivot at some step (singular matrix). -/
def gaussSolve (A : List (List ℚ)) (b : List ℚ) : Option (List ℚ) :=
  (gaussElim b.length (List.zipWith (fun row v => row ++ [v]) A b)).map backSub

/-- np.polyval with coefficients ordered from the highest degree down
(Horner evaluation, as numpy does). -/
def polyval (coeffs : List ℚ) (t : ℚ) : ℚ :=
  coeffs.foldl (fun acc c => acc * t + c) 0

/-- np.polyfit(x, y, deg): least-squares polynomial fit, coefficients
returned highest degree first.  Failure modes of the real routine: an
empty x is rejected with a TypeError before anything else; and because
polyfit divides every Vandermonde column by its Euclidean norm before
calling lstsq, a sample set whose points are all zero combined with
deg >= 1 has zero-norm higher-power columns, the scaling produces NaN and
lstsq raises LinAlgError — the second branch below.  Any other
rank-deficient system merely produces a RankWarning while a least-squares
solution is still returned.  The solution itself is embedded through the
normal equations when the Vandermonde matrix has full column rank
(deg + 1 <= number of points) and through the minimum-norm solution when
it has full row rank (deg + 1 > number of points); the column scaling is
not modelled in the minimum-norm branch — it rescales which exact
solution lstsq picks, but the fitted values polyval produces at the
sample points themselves, the only use this code base makes of the
coefficients, coincide for every exact solution.  The two branches cover
every call of this code base, whose sample points are the distinct pixel
indices 0..n-1, so the rank-deficient error branch below is unreachable
from those calls. -/
def np_polyfit (xs ys : List ℚ) (deg : Nat) : Except String (List ℚ) :=
  if xs.length = 0 then .error "expected non-empty vector for x"
  else if 1 ≤ deg ∧ ∀ t ∈ xs, t = 0 then
    .error "SVD did not converge in Linear Least Squares"
  else
    let V := xs.map (fun t => (List.range (deg + 1)).map (fun j => t ^ (deg - j)))
    if deg + 1 ≤ xs.length then
      match gaussSolve (matMul (matTranspose V) V) (matVec (matTranspose V) ys) with
      | some c => .ok c
      | none => .error "rank-deficient fit"
    else
      match gaussSolve (matMul V (matTranspose V)) ys with
      | some z => .ok (matVec (matTranspose V) z)
      | none => .error "rank-deficient fit"

/-- Stable insertion of a (pixel, wavelength) pair into a list sorted by
pixel: an element inserted later with an equal key goes after the ones
already present, matching the stable mergesort argsort that interp1d uses
when assume_sorted is false. -/
def insertPair (p : ℚ × ℚ) : List (ℚ × ℚ) → List (ℚ × ℚ)
  | [] => [p]
  | q :: qs => if p.1 ≤ q.1 then p :: q :: qs else q :: insertPair p qs

/-- Stable sort of (pixel, wavelength) pairs by pixel value, the effect of
np.argsort(kind=mergesort) inside interp1d for unsorted input. -/
def sortByPixel (l : List (ℚ × ℚ)) : List (ℚ × ℚ) :=
  l.foldr insertPair []

/-- np.searchsorted with side left on a sorted list: the number of elements
strictly below the query. -/
def searchsorted (xs : List ℚ) (v : ℚ) : Nat :=
  xs.countP (fun x => decide (x < v))

/-- The state held by scipy interp1d(kind=linear, fill_value=extrapolate):
the anchor pixels sorted ascending and their wavelengths, reordered by the
same permutation. -/
structure Calibration where
  pixels : List ℚ
  wavelengths : List ℚ
deriving DecidableEq, Repr

/-- SpectrometerProcessor.wavelength_calibration (src/processor.py lines
48-67): splits the (pixel, wavelength) pairs and hands them to
interp1d(kind=linear, fill_value=extrapolate).  interp1d performs no
validation beyond requiring at least 2 points (ValueError below); with
assume_sorted false it stably sorts the anchors by pixel, and duplicate
pixels are accepted (they only make the affected segment slope non-finite
at evaluation time). -/
def wavelength_calibration (pixel_wavelength_pairs : List (ℚ × ℚ)) :
    Except String Calibration :=
  if pixel_wavelength_pairs.length < 2 then
    .error "x and y arrays must have at least 2 entries"
  else
    let sorted := sortByPixel pixel_wavelength_pairs
    .ok ⟨sorted.map Prod.fst, sorted.map Prod.snd⟩

/-- Evaluation of the interp1d linear interpolant with extrapolation
(scipy _call_linear): the searchsorted index is clipped to 1..n-1, and the
segment through anchors lo = hi - 1 and hi is evaluated as
slope * (q - x_lo) + y_lo; a zero-length segment (duplicate pixels) makes
the slope non-finite, modelled as none. -/
def interpEval (pixels wavelengths : List ℚ) (q : ℚ) : Option ℚ :=
  let hi := min (max (searchsorted pixels q) 1) (pixels.length - 1)
  let xlo := pixels.getD (hi - 1) 0
  let xhi := pixels.getD hi 0
  let ylo := wavelengths.getD (hi - 1) 0
  let yhi := wavelengths.getD hi 0
  if xhi - xlo = 0 then none
  else some ((yhi - ylo) / (xhi - xlo) * (q - xlo) + ylo)

/-- SpectrometerProcessor.apply_calibration (src/processor.py lines 69-86):
raises ValueError when no calibration was built, otherwise evaluates the
interpolant at the pixel indices 0..len-1 and returns the pair
(wavelengths, spectrum_raw); the intensities are returned untouched. -/
def apply_calibration (calibration : Option Calibration) (spectrum_raw : List ℚ) :
    Except String (List (Option ℚ) × List ℚ) :=
  match calibration with
  | none => .error "No calibration loaded! Call wavelength_calibration() first"
  | some c =>
      .ok ((List.range spectrum_raw.length).map
            (fun i : Nat => interpEval c.pixels c.wavelengths (i : ℚ)), spectrum_raw)

/-- Insertion of a value into a sorted list of rationals. -/
def insertRat (a : ℚ) : List ℚ → List ℚ
  | [] => [a]
  | b :: bs => if a ≤ b then a :: b :: bs else b :: insertRat a bs

/-- Sorting a list of rationals ascending. -/
def sortRat (l : List ℚ) : List ℚ :=
  l.foldr insertRat []

/-- Median of an odd-length window: the middle element of the sorted
window. -/
def medianOdd (w : List ℚ) : ℚ :=
  (sortRat w).getD (w.length / 2) 0

/-- scipy.signal.medfilt with an odd kernel_size: sliding median over a
centred window, with the input zero-padded at both ends. -/
def medfilt (xs : List ℚ) (kernel_size : Nat) : List ℚ :=
  let h := kernel_size / 2
  (List.range xs.length).map (fun i =>
    medianOdd ((List.range kernel_size).map
      (fun t => npGetZero xs ((i : Int) + (t : Int) - (h : Int)))))

/-- SpectrometerProcessor.baseline_correction (src/processor.py lines
88-115).  method polynomial: np.polyfit of the given degree on the pixel
indices, then subtract np.polyval of the fit — there is no degree
validation of any kind.  method rolling_minimum: window = len // 20 passed
directly to signal.medfilt, which raises ValueError for an even (including
zero) kernel size — there is no clamping and no parity adjustment.  Any
other method raises ValueError. -/
def baseline_correction (spectrum : List ℚ) (method : String := "polynomial")
    (degree : Nat := 3) : Except String (List ℚ) :=
  if method = "polynomial" then
    let x := (List.range spectrum.length).map (fun i => (i : ℚ))
    match np_polyfit x spectrum degree with
    | .error e => .error e
    | .ok coeffs =>
        let baseline := x.map (polyval coeffs)
        .ok (List.zipWith (· - ·) spectrum baseline)
  else if method = "rolling_minimum" then
    let window := spectrum.length / 20
    if window % 2 ≠ 1 then .error "Each element of kernel_size should be odd."
    else .ok (List.zipWith (· - ·) spectrum (medfilt spectrum window))
  else .error "Unknown baseline method"

/-- SpectrometerProcessor.normalize_spectrum (src/processor.py lines
138-140): (spectrum - min) / (max - min), with no guard of any kind.
np.min and np.max reject an empty array (ValueError); on a flat spectrum
the denominator max - min is zero and numpy produces a non-finite value
(0/0 = nan) at every element while still returning an array, modelled as
none entries inside an ok result. -/
def normalize_spectrum (spectrum : List ℚ) : Except String (List (Option ℚ)) :=
  match spectrum with
  | [] => .error "zero-size array to reduction operation minimum which has no identity"
  | v :: rest =>
      let mn := rest.foldl min v
      let mx := rest.foldl max v
      .ok ((v :: rest).map (fun t => npDiv (t - mn) (mx - mn)))

/-- lstsq for the underdetermined full-row-rank system A c = y produced by
savgol_coeffs (polyorder + 1 rows, window_length >= polyorder + 1 columns
of distinct nodes): the minimum-norm solution Aᵀ (A Aᵀ)⁻¹ y.  scipy lstsq
never raises, and A Aᵀ is invertible at every call site, so the fallback
(zero coefficients) is unreachable. -/
def lstsqRowRank (A : List (List ℚ)) (y : List ℚ) : List ℚ :=
  match gaussSolve (matMul A (matTranspose A)) y with
  | some z => matVec (matTranspose A) z
  | none => (A.headD []).map (fun _ => 0)

/-- scipy.signal.savgol_coeffs(window_length, polyorder) with deriv = 0,
delta = 1, pos = None, use = conv: raises when polyorder >= window_length
(checked by the caller savgol_filter here); pos defaults to halflen, or
halflen - 1/2 for an even window (even windows are accepted); the design
matrix A has rows x^i for the reversed node offsets x, and the
coefficients are the minimum-norm least-squares solution of A c = e0. -/
def savgol_coeffs (window_length polyorder : Nat) : List ℚ :=
  let halflen := window_length / 2
  let pos : ℚ := if window_length % 2 = 0 then (halflen : ℚ) - 1/2 else (halflen : ℚ)
  let x := ((List.range window_length).map (fun j => (j : ℚ) - pos)).reverse
  let A := (List.range (polyorder + 1)).map (fun i => x.map (fun t => t ^ i))
  let y : List ℚ := 1 :: List.replicate polyorder 0
  lstsqRowRank A y

/-- scipy.ndimage.correlate1d with mode constant and cval 0: a centred
sliding dot product with the weights, zero-padded outside the input. -/
def correlate1d (input w : List ℚ) (origin : Int) : List ℚ :=
  let h : Int := (w.length : Int) / 2
  (List.range input.length).map (fun i =>
    ((List.range w.length).map
      (fun j => w.getD j 0 * npGetZero input ((i : Int) + (j : Int) - h + origin))).sum)

/-- scipy.ndimage.convolve1d: correlate1d with the weights reversed and
the origin negated, shifted once more for an even weight count. -/
def convolve1d (input w : List ℚ) : List ℚ :=
  correlate1d input w.reverse (if w.length % 2 = 0 then -1 else 0)

/-- np.polyfit as called from the savgol edge fitting, where the sample
points are always distinct and polyorder < number of points, so the fit
never fails; the fallback is unreachable. -/
def polyfitEdge (xs ys : List ℚ) (deg : Nat) : List ℚ :=
  match np_polyfit xs ys deg with
  | .ok c => c
  | .error _ => List.replicate (deg + 1) 0

/-- scipy _fit_edge with deriv = 0, delta = 1: fit a polynomial of degree
polyorder to the window x[window_start:window_stop] and overwrite
y[interp_start:interp_stop] with its values. -/
def fit_edge (x : List ℚ)
    (window_start window_stop interp_start interp_stop polyorder : Nat)
    (y : List ℚ) : List ℚ :=
  let xs := (List.range (window_stop - window_start)).map (fun i => (i : ℚ))
  let x_edge := (x.drop window_start).take (window_stop - window_start)
  let poly_coeffs := polyfitEdge xs x_edge polyorder
  (y.enum).map (fun iv =>
    if interp_start ≤ iv.1 ∧ iv.1 < interp_stop then
      polyval poly_coeffs ((iv.1 : ℚ) - (window_start : ℚ))
    else iv.2)

/-- scipy _fit_edges_polyfit: polynomial edge handling of mode interp,
replacing the first and last halflen samples of the convolution result. -/
def fit_edges_polyfit (x : List ℚ) (window_length polyorder : Nat)
    (y : List ℚ) : List ℚ :=
  let halflen := window_length / 2
  let n := x.length
  let y1 := fit_edge x 0 window_length 0 halflen polyorder y
  fit_edge x (n - window_length) n (n - halflen) n polyorder y1

/-- scipy.signal.savgol_filter with the default mode interp: rejects
polyorder >= window_length (inside savgol_coeffs) and, for mode interp,
window_length > size of x; an even window_length is accepted (there is no
odd-parity check).  Accepted windows produce the convolution with the
least-squares coefficients plus polynomial edge fits. -/
def savgol_filter (x : List ℚ) (window_length polyorder : Nat) :
    Except String (List ℚ) :=
  if window_length ≤ polyorder then
    .error "polyorder must be less than window_length."
  else if x.length < window_length then
    .error "If mode is interp, window_length must be less than or equal to the size of x."
  else
    .ok (fit_edges_polyfit x window_length polyorder
          (convolve1d x (savgol_coeffs window_length polyorder)))

/-- SpectrometerProcessor.smooth_spectrum (src/processor.py lines
142-144): signal.savgol_filter(spectrum, window_length, 3) with the fixed
polyorder 3 and default window_length 11. -/
def smooth_spectrum (spectrum : List ℚ) (window_length : Nat := 11) :
    Except String (List ℚ) :=
  savgol_filter spectrum window_length 3

/-- The dictionary returned by SpectrometerApp.detect_biosignatures
(src/spectrometer_app.py lines 89-118). -/
structure BiosignatureResult where
  chlorophyll : Bool
  carotenoids : Bool
  organics : Bool
  confidence : String
  interpretation : String
deriving DecidableEq, Repr

/-- has_chlorophyll = any(425 < p < 435) or any(655 < p < 665)
(src/spectrometer_app.py lines 91-92); all bounds strict. -/
def has_chlorophyll (peak_wavelengths : List ℚ) : Bool :=
  peak_wavelengths.any (fun p => decide (425 < p ∧ p < 435))
    || peak_wavelengths.any (fun p => decide (655 < p ∧ p < 665))

/-- has_carotenoids = any(450 < p < 550) (line 94); bounds strict. -/
def has_carotenoids (peak_wavelengths : List ℚ) : Bool :=
  peak_wavelengths.any (fun p => decide (450 < p ∧ p < 550))

/-- has_organics = any(400 < p < 450) (line 95); bounds strict. -/
def has_organics (peak_wavelengths : List ℚ) : Bool :=
  peak_wavelengths.any (fun p => decide (400 < p ∧ p < 450))

/-- indicators = sum([has_chlorophyll, has_carotenoids, has_organics])
(line 97): the number of true flags. -/
def indicatorCount (peak_wavelengths : List ℚ) : Nat :=
  (has_chlorophyll peak_wavelengths).toNat
    + (has_carotenoids peak_wavelengths).toNat
    + (has_organics peak_wavelengths).toNat

/-- SpectrometerApp.detect_biosignatures (src/spectrometer_app.py lines
89-118): the three flags, then the if-chain on the indicator count picking
the confidence level and interpretation string. -/
def detect_biosignatures (peak_wavelengths : List ℚ) : BiosignatureResult :=
  if indicatorCount peak_wavelengths = 0 then
    ⟨has_chlorophyll peak_wavelengths, has_carotenoids peak_wavelengths,
      has_organics peak_wavelengths, "none", "No biosignatures detected"⟩
  else if indicatorCount peak_wavelengths = 1 then
    ⟨has_chlorophyll peak_wavelengths, has_carotenoids peak_wavelengths,
      has_organics peak_wavelengths, "low", "Weak biosignature detected"⟩
  else if indicatorCount peak_wavelengths = 2 then
    ⟨has_chlorophyll peak_wavelengths, has_carotenoids peak_wavelengths,
      has_organics peak_wavelengths, "medium", "Multiple biosignatures detected"⟩
  else
    ⟨has_chlorophyll peak_wavelengths, has_carotenoids peak_wavelengths,
      has_organics peak_wavelengths, "high", "Strong biosignature pattern detected"⟩

/-- Modelled from the spec, section 4.6, as a refinement target only: the
confidence map 0:none, 1:low, 2:medium, 3:high, each paired with its fixed
interpretation string. -/
def specConfidenceTable : Nat → String × String
  | 0 => ("none", "No biosignatures detected")
  | 1 => ("low", "Weak biosignature detected")
  | 2 => ("medium", "Multiple biosignatures detected")
  | _ => ("high", "Strong biosignature pattern detected")

/-- The Scenario A anchors, also the default calibration of the app
(src/spectrometer_app.py lines 35-39): pixel 0 at 400 nm, 640 at 550 nm,
1279 at 700 nm. -/
def scenarioAnchors : List (ℚ × ℚ) := [(0, 400), (640, 550), (1279, 700)]

/-- The calibration state built from the Scenario A anchors. -/
def scenarioCal : Calibration := ⟨[0, 640, 1279], [400, 550, 700]⟩

/-- The Scenario A wavelength axis: the calibration applied to a spectrum
of length 1280. -/
def scenarioWavelengths : List (Option ℚ) :=
  match apply_calibration (some scenarioCal) (List.replicate 1280 0) with
  | .ok r => r.1
  | .error _ => []

/-- Claim C1: the spec says building a calibration map from anchors with a
duplicate or decreasing pixel value (or fewer than 2 anchors) fails with
InvalidCalibration.  Counterexample: the decreasing anchor list
(640, 550), (0, 400) is not strictly increasing, yet build succeeds and a
map is produced (interp1d just sorts the anchors); a duplicated pixel is
accepted too. -/
theorem build_accepts_unsorted_anchors :
    (wavelength_calibration [((640 : ℚ), 550), (0, 400)]).isOk = true
    ∧ (wavelength_calibration [((0 : ℚ), 400), (0, 500), (10, 600)]).isOk = true
    ∧ ¬ List.Chain' (· < ·) ([((640 : ℚ), 550), (0, 400)].map Prod.fst) := by
  refine ⟨by decide, by decide, ?_⟩
  norm_num [List.chain'_cons]

/-- Claim C1 (amended): wavelength_calibration fails only when fewer than
2 anchor pairs are supplied, and then with the interp1d ValueError, not an
InvalidCalibration error; every list of at least 2 anchors — including
lists with duplicate or decreasing pixel values — produces a map. -/
theorem build_fails_iff_fewer_than_two_anchors
    (pairs : List (ℚ × ℚ)) :
    (wavelength_calibration pairs).isOk = true ↔ 2 ≤ pairs.length := by
  unfold wavelength_calibration
  split <;> rename_i h <;> simp [Except.isOk, Except.toBool] <;> omega

/-- Claim C2 (code bug): the spec says the rolling_minimum window of
floor(N/20) is clamped to at least 1 and forced odd so the correction is
defined even for short spectra.  The code passes floor(N/20) to
signal.medfilt unchanged; whenever floor(N/20) is 0 or even the filter
raises ValueError.  Evaluations at the failing inputs: a spectrum of the
code base demo width 1280 (window 64, even) and a short spectrum of length
5 (window 0) both fail. -/
theorem rolling_minimum_even_window_error :
    baseline_correction (List.replicate 1280 1) "rolling_minimum" 3
      = .error "Each element of kernel_size should be odd."
    ∧ baseline_correction (List.replicate 5 1) "rolling_minimum" 3
      = .error "Each element of kernel_size should be odd." := by
  constructor <;> decide!

/-- Claim C3: the spec says baseline correction with method polynomial
fails with InvalidParameter when degree is not strictly below the spectrum
length, and in particular (Scenario E) that degree 3 on a length-5 spectrum
fails.  Counterexample: degree 3 on a length-5 spectrum succeeds — and
3 < 5 anyway, so Scenario E contradicts the rule it is meant to test. -/
theorem polynomial_degree3_length5_succeeds :
    (baseline_correction [1, 1, 1, 1, 1] "polynomial" 3).isOk = true := by
  decide!

/-- Claim C3 (amended): the polynomial branch performs no degree
validation and no InvalidParameter error exists: Scenario E's call —
degree 3 on a length-5 spectrum — succeeds, returning the intensities
minus the least-squares cubic fit (the zero vector on a constant
spectrum), and a degree exceeding the length is not rejected either
(degree 5 on the length-3 spectrum [1, 1, 1] succeeds; numpy merely warns
on rank deficiency).  The failures that do exist are different ones:
every empty spectrum fails with the np.polyfit TypeError, and every
single-sample spectrum with degree at least 1 fails with the lstsq
LinAlgError (polyfit scales the higher-power Vandermonde columns, all
zero at the single pixel index 0, by their zero norm) — neither is an
InvalidParameter. -/
theorem polynomial_baseline_no_degree_validation :
    baseline_correction [1, 1, 1, 1, 1] "polynomial" 3 = .ok [0, 0, 0, 0, 0]
    ∧ (baseline_correction [2, 1, 3, 1, 5] "polynomial" 3).isOk = true
    ∧ (baseline_correction [1, 1, 1] "polynomial" 5).isOk = true
    ∧ (∀ d : Nat, baseline_correction [] "polynomial" d
        = .error "expected non-empty vector for x")
    ∧ (∀ (v : ℚ) (d : Nat), 1 ≤ d →
        baseline_correction [v] "polynomial" d
          = .error "SVD did not converge in Linear Least Squares") := by
  refine ⟨by decide!, by decide!, by decide!, ?_, ?_⟩
  · intro d
    rfl
  · intro v d hd
    simp [baseline_correction, np_polyfit, List.range_succ, hd]

/-- Claim C3 witness: the single-sample failure clause of the amended
statement applied at the concrete spectrum [5] with degree 3. -/
theorem polynomial_baseline_no_degree_validation_witness :
    baseline_correction [5] "polynomial" 3
      = .error "SVD did not converge in Linear Least Squares" :=
  polynomial_baseline_no_degree_validation.2.2.2.2 5 3 (by decide)

theorem foldl_min_all_eq (x : ℚ) :
    ∀ l : List ℚ, (∀ v ∈ l, v = x) → l.foldl min x = x
  | [], _ => rfl
  | a :: l, h => by
      have ha : a = x := h a (List.mem_cons_self a l)
      have ih := foldl_min_all_eq x l (fun v hv => h v (List.mem_cons_of_mem a hv))
      simp [ha, min_self, ih]

theorem foldl_max_all_eq (x : ℚ) :
    ∀ l : List ℚ, (∀ v ∈ l, v = x) → l.foldl max x = x
  | [], _ => rfl
  | a :: l, h => by
      have ha : a = x := h a (List.mem_cons_self a l)
      have ih := foldl_max_all_eq x l (fun v hv => h v (List.mem_cons_of_mem a hv))
      simp [ha, max_self, ih]

/-- Claim C5: the spec requires a flat spectrum (max == min) to have an
explicitly defined behaviour, either a defined failure or a defined
constant output.  Counterexample: normalising the flat spectrum [5, 5, 5]
neither fails nor yields a defined constant — it divides by zero and an
array of non-finite (nan) values propagates out of a successful return. -/
theorem normalize_flat_spectrum_undefined :
    normalize_spectrum [5, 5, 5] = .ok [none, none, none] := by
  decide!

/-- Claim C5 (amended): normalize_spectrum performs the range division
unguarded: for every nonempty perfectly flat spectrum, max - min is zero,
every element is divided by zero, and the function returns an ok result
whose every entry is non-finite (0/0 = nan) — there is no defined failure
and no defined constant output, the undefined values simply propagate. -/
theorem normalize_flat_spectrum_all_nonfinite
    (s : List ℚ) (x : ℚ) (hne : s ≠ []) (hall : ∀ v ∈ s, v = x) :
    normalize_spectrum s = .ok (s.map (fun _ => none)) := by
  match s, hne with
  | v :: rest, _ =>
    have hv : v = x := hall v (List.mem_cons_self v rest)
    subst hv
    have hrest : ∀ w ∈ rest, w = v := fun w hw => hall w (List.mem_cons_of_mem v hw)
    simp only [normalize_spectrum]
    rw [foldl_min_all_eq v rest hrest, foldl_max_all_eq v rest hrest]
    simp [npDiv]

/-- Claim C5 witness: the amended statement applied to the concrete flat
spectrum [7, 7]. -/
theorem normalize_flat_spectrum_all_nonfinite_witness :
    normalize_spectrum [7, 7] = .ok ([(7 : ℚ), 7].map (fun _ => none)) :=
  normalize_flat_spectrum_all_nonfinite [7, 7] 7 (by simp)
    (by intro v hv; simp at hv; simp [hv])

/-- Claim C4: the spec says smoothing fails with InvalidParameter whenever
windowLength is even or greater than the spectrum length, and otherwise
returns the order-3 regression.  Counterexample: windowLength 3 is odd and
not greater than the spectrum length 5, yet the call fails (savgol_filter
requires polyorder 3 < window_length), while the even windowLength 4
succeeds (scipy applies no odd-parity check). -/
theorem smooth_rejects_odd_window_three :
    smooth_spectrum [1, 2, 3, 4, 5] 3
      = .error "polyorder must be less than window_length."
    ∧ (smooth_spectrum [1, 2, 3, 4, 5] 4).isOk = true := by
  constructor
  · decide!
  · decide!

/-- Claim C4 (amended): smooth_spectrum fails — with the scipy ValueError,
no InvalidParameter wrapper exists — exactly when windowLength is at most
3 (the fixed polyorder, so the odd windows 1 and 3 are rejected despite
satisfying the claimed precondition) or greater than the spectrum length;
parity is never checked, so even windows above 3 and within the length are
accepted, and accepted windows return the order-3 Savitzky-Golay local
polynomial regression. -/
theorem smooth_fails_iff_window_invalid (spectrum : List ℚ) (window_length : Nat) :
    (smooth_spectrum spectrum window_length).isOk = false
      ↔ (window_length ≤ 3 ∨ spectrum.length < window_length) := by
  unfold smooth_spectrum savgol_filter
  split
  · rename_i h
    simp [Except.isOk, Except.toBool]
    omega
  · rename_i h
    split
    · rename_i h2
      simp [Except.isOk, Except.toBool]
      omega
    · rename_i h2
      simp [Except.isOk, Except.toBool]
      omega

/-- Claim C6: every classification window uses strict inequalities, so a
peak exactly equal to one of a window's boundaries never sets that
window's flag (prepending the boundary value to any peak list leaves that
flag unchanged); in particular a peak at exactly 425 does not set
chlorophyll, while one at 425.0001 does. -/
theorem biosignature_boundaries_strict :
    (∀ (b : ℚ) (ps : List ℚ), b ∈ ([425, 435, 655, 665] : List ℚ) →
        has_chlorophyll (b :: ps) = has_chlorophyll ps)
    ∧ (∀ (b : ℚ) (ps : List ℚ), b ∈ ([450, 550] : List ℚ) →
        has_carotenoids (b :: ps) = has_carotenoids ps)
    ∧ (∀ (b : ℚ) (ps : List ℚ), b ∈ ([400, 450] : List ℚ) →
        has_organics (b :: ps) = has_organics ps)
    ∧ (detect_biosignatures [425]).chlorophyll = false
    ∧ (detect_biosignatures [4250001 / 10000]).chlorophyll = true := by
  refine ⟨?_, ?_, ?_, by decide!, by decide!⟩ <;>
    intro b ps hb <;> fin_cases hb <;>
    norm_num [has_chlorophyll, has_carotenoids, has_organics, List.any_cons]

/-- Claim C6 witness: prepending the boundary peak 425 to the peak list
[500] leaves the chlorophyll flag unchanged. -/
theorem biosignature_boundaries_strict_witness :
    has_chlorophyll [(425 : ℚ), 500] = has_chlorophyll [500] :=
  biosignature_boundaries_strict.1 425 [500] (by decide)

/-- Claim C7 counterexample: Scenario B does not match the code: with
peak wavelengths [430, 500], 430 also lies strictly inside the organics
window (400, 450), so all three flags are set, the indicator count is 3
and the confidence is high — not (true, true, false) with medium as the
claim states. -/
theorem scenarioB_gives_high_confidence :
    detect_biosignatures [430, 500]
      = ⟨true, true, true, "high", "Strong biosignature pattern detected"⟩ := by
  decide

/-- Claim C7 (amended): the classifier counts the true flags among
chlorophyll, carotenoids and organics and maps the count through the fixed
confidence/interpretation table 0:none, 1:low, 2:medium, 3:high, and the
empty peak list gives all flags false with confidence none; but Scenario
B's peak list [430, 500] sets chlorophyll, carotenoids and also organics
(430 lies inside the strict organics window), so its confidence is high
with interpretation "Strong biosignature pattern detected", not medium. -/
theorem biosignature_confidence_table (ps : List ℚ) :
    ((detect_biosignatures ps).confidence, (detect_biosignatures ps).interpretation)
        = specConfidenceTable (indicatorCount ps)
    ∧ detect_biosignatures [430, 500]
        = ⟨true, true, true, "high", "Strong biosignature pattern detected"⟩
    ∧ detect_biosignatures []
        = ⟨false, false, false, "none", "No biosignatures detected"⟩ := by
  refine ⟨?_, by decide, by decide⟩
  have h : indicatorCount ps = 0 ∨ indicatorCount ps = 1 ∨ indicatorCount ps = 2
      ∨ 3 ≤ indicatorCount ps := by
    omega
  rcases h with h | h | h | h
  · simp [detect_biosignatures, h, specConfidenceTable]
  · simp [detect_biosignatures, h, specConfidenceTable]
  · simp [detect_biosignatures, h, specConfidenceTable]
  · obtain ⟨m, hm⟩ : ∃ m, indicatorCount ps = m + 3 :=
      ⟨indicatorCount ps - 3, by omega⟩
    simp [detect_biosignatures, hm, specConfidenceTable]

/-- Claim C10: the chlorophyll blue window (425, 435) is nested inside the
organics window (400, 450): a peak strictly between 425 and 435 sets both
flags, forces the indicator count to at least 2, and the confidence to
medium or high — never low. -/
theorem chlorophyll_window_nested_in_organics
    (ps : List ℚ) (p : ℚ) (hmem : p ∈ ps) (h1 : 425 < p) (h2 : p < 435) :
    has_chlorophyll ps = true ∧ has_organics ps = true
    ∧ 2 ≤ indicatorCount ps
    ∧ ((detect_biosignatures ps).confidence = "medium"
        ∨ (detect_biosignatures ps).confidence = "high") := by
  have hc : has_chlorophyll ps = true := by
    simp only [has_chlorophyll, Bool.or_eq_true, List.any_eq_true,
      decide_eq_true_eq]
    exact Or.inl ⟨p, hmem, h1, h2⟩
  have ho : has_organics ps = true := by
    simp only [has_organics, List.any_eq_true, decide_eq_true_eq]
    exact ⟨p, hmem, by linarith, by linarith⟩
  have hcount : 2 ≤ indicatorCount ps := by
    rcases Bool.eq_false_or_eq_true (has_carotenoids ps) with hcar | hcar <;>
      simp [indicatorCount, hc, ho, hcar]
  refine ⟨hc, ho, hcount, ?_⟩
  unfold detect_biosignatures
  split
  · rename_i h0
    exact absurd h0 (by omega)
  · split
    · rename_i hone
      exact absurd hone (by omega)
    · split
      · left
        rfl
      · right
        rfl

/-- Claim C10 witness: the single peak 430 sets chlorophyll and organics
and yields at least two indicators with confidence medium or high. -/
theorem chlorophyll_window_nested_in_organics_witness :
    has_chlorophyll [430] = true ∧ has_organics [430] = true
    ∧ 2 ≤ indicatorCount [430]
    ∧ ((detect_biosignatures [430]).confidence = "medium"
        ∨ (detect_biosignatures [430]).confidence = "high") :=
  chlorophyll_window_nested_in_organics [430] 430 (by decide) (by decide) (by decide)

theorem getD_range_map {α : Type} (f : Nat → α) (n i : Nat) (d : α) (h : i < n) :
    ((List.range n).map f).getD i d = f i := by
  rw [List.getD_eq_getElem?_getD, List.getElem?_eq_getElem (by simpa using h)]
  simp

theorem sortByPixel_eq_self (l : List (ℚ × ℚ))
    (h : List.Chain' (fun p q : ℚ × ℚ => p.1 < q.1) l) :
    sortByPixel l = l := by
  induction l with
  | nil => rfl
  | cons a l ih =>
      have hstep : sortByPixel (a :: l) = insertPair a (sortByPixel l) := rfl
      rw [hstep, ih h.tail]
      cases l with
      | nil => rfl
      | cons b bs =>
          have hab : a.1 < b.1 := (List.chain'_cons.mp h).1
          simp [insertPair, le_of_lt hab]

theorem chain_lt_getD (l : List ℚ) (h : List.Chain' (· < ·) l)
    (i : Nat) (hi : i + 1 < l.length) :
    l.getD i 0 < l.getD (i + 1) 0 := by
  rw [List.getD_eq_getElem?_getD, List.getD_eq_getElem?_getD,
    List.getElem?_eq_getElem (by omega), List.getElem?_eq_getElem hi]
  have := List.chain'_iff_get.mp h i (by omega)
  simpa using this

theorem interpEval_isSome_of_chain (pixels wavelengths : List ℚ)
    (h : List.Chain' (· < ·) pixels) (h2 : 2 ≤ pixels.length) (q : ℚ) :
    (interpEval pixels wavelengths q).isSome = true := by
  simp only [interpEval]
  generalize hhi : min (max (searchsorted pixels q) 1) (pixels.length - 1) = hi
  have h1le : 1 ≤ hi := by
    rw [← hhi]
    exact Nat.le_min.mpr ⟨Nat.le_max_right _ _, by omega⟩
  have hub : hi ≤ pixels.length - 1 := by
    rw [← hhi]
    exact Nat.min_le_right _ _
  have hne : pixels.getD (hi - 1) 0 < pixels.getD hi 0 := by
    have hstep := chain_lt_getD pixels h (hi - 1) (by omega)
    rwa [Nat.sub_add_cancel h1le] at hstep
  rw [if_neg (sub_ne_zero.mpr (ne_of_gt hne))]
  rfl

/-- Claim C8: a calibration built from at least 2 strictly increasing
anchors evaluates to a wavelength at every query pixel (piecewise-linear
interpolation with linear extrapolation; applying it never fails), and
Scenario A holds: with anchors (0,400), (640,550), (1279,700) and a
spectrum of length 1280, the wavelength at pixel 0 is 400, at pixel 640 is
550 and at pixel 1279 is 700. -/
theorem calibration_apply_total_scenarioA :
    (∀ (pairs : List (ℚ × ℚ)) (c : Calibration) (q : ℚ),
        2 ≤ pairs.length →
        List.Chain' (· < ·) (pairs.map Prod.fst) →
        wavelength_calibration pairs = .ok c →
        (interpEval c.pixels c.wavelengths q).isSome = true)
    ∧ (∀ (c : Calibration) (s : List ℚ),
        (apply_calibration (some c) s).isOk = true)
    ∧ wavelength_calibration scenarioAnchors = .ok scenarioCal
    ∧ scenarioWavelengths.length = 1280
    ∧ scenarioWavelengths.getD 0 none = some 400
    ∧ scenarioWavelengths.getD 640 none = some 550
    ∧ scenarioWavelengths.getD 1279 none = some 700 := by
  have hw : scenarioWavelengths = (List.range 1280).map
      (fun i : Nat => interpEval scenarioCal.pixels scenarioCal.wavelengths (i : ℚ)) := by
    simp only [scenarioWavelengths, apply_calibration, List.length_replicate]
  refine ⟨?_, ?_, by decide, ?_, ?_, ?_, ?_⟩
  · intro pairs c q h2 hinc hok
    have hsort : sortByPixel pairs = pairs :=
      sortByPixel_eq_self pairs ((List.chain'_map Prod.fst).mp hinc)
    simp only [wavelength_calibration] at hok
    rw [if_neg (by omega), hsort] at hok
    have hc := Except.ok.inj hok
    rw [← hc]
    exact interpEval_isSome_of_chain _ _ hinc (by simpa using h2) q
  · intro c s
    rfl
  · rw [hw]
    simp only [List.length_map, List.length_range]
  · rw [hw, getD_range_map _ _ _ _ (by omega)]
    decide!
  · rw [hw, getD_range_map _ _ _ _ (by omega)]
    decide!
  · rw [hw, getD_range_map _ _ _ _ (by omega)]
    decide!

/-- Claim C8 witness: the general part applied to the Scenario A anchors
and the query pixel 5. -/
theorem calibration_apply_total_scenarioA_witness :
    (interpEval scenarioCal.pixels scenarioCal.wavelengths 5).isSome = true :=
  calibration_apply_total_scenarioA.1 scenarioAnchors scenarioCal 5 (by decide)
    (by norm_num [scenarioAnchors, List.chain'_cons]) (by decide)

/-- Claim C9: applying a calibration map never alters the intensities:
apply_calibration returns the raw spectrum itself as the intensities
component, only the wavelength axis is computed. -/
theorem apply_calibration_preserves_intensities (c : Calibration) (s : List ℚ) :
    (apply_calibration (some c) s).toOption.map Prod.snd = some s := by
  rfl
